import Mathlib

/-!
# Verification of `src/bind_groups.rs` (wgpu material bind-group cache)

Shallow embedding of the material bind-group caching layer. The external
graphics device is modeled as a creation counter: every
`create_bind_group_layout` / `create_bind_group` call stamps the created
object with a fresh `creation_id`, so object identity and "how many create
calls happened" are observable. The Rust `DefaultHasher` (SipHash over the
sequence of opaque wgpu handle ids) is modeled by the fed sequence itself
(`List Nat` of handle ids): the hasher is deterministic in the fed sequence,
and hash collisions between distinct sequences are abstracted away (the
design itself documents that it accepts them as an approximation of
equality). The device feature set is fixed per device, so
`TextureFormat::sample_type(aspect, features)` is modeled as per-aspect
fields of the format. String labels carry no behavior and are omitted.
The `.expect("Unsupported texture format")` panic is modeled by `Option`:
a `none` result of a cache method is the panic.
-/

/-- `wgpu::SamplerBindingType`. -/
inductive SamplerBindingType where
  | Filtering
  | NonFiltering
  | Comparison
deriving DecidableEq, Repr

/-- `wgpu::TextureSampleType`. -/
inductive TextureSampleType where
  | Float (filterable : Bool)
  | Depth
  | Sint
  | Uint
deriving DecidableEq, Repr

/-- `wgpu::TextureViewDimension` (the variants this module can produce). -/
inductive TextureViewDimension where
  | D2
  | D2Array
deriving DecidableEq, Repr

/-- `wgpu::ShaderStages` (only `FRAGMENT` occurs in this module). -/
inductive ShaderStages where
  | FRAGMENT
deriving DecidableEq, Repr

/-- `wgpu::TextureAspect` (the aspects this module queries). -/
inductive TextureAspect where
  | All
  | DepthOnly
deriving DecidableEq, Repr

/-- The sampling metadata of a `wgpu::TextureFormat`: what
`format.sample_type(Some(aspect), Some(device_features))` answers for the
(fixed) device feature set, per aspect. -/
structure TextureFormat where
  sample_type_all : Option TextureSampleType
  sample_type_depth_only : Option TextureSampleType
deriving DecidableEq, Repr

/-- `format.sample_type(Some(aspect), Some(device_features))`. -/
def TextureFormat.sample_type (f : TextureFormat) (aspect : TextureAspect) :
    Option TextureSampleType :=
  match aspect with
  | TextureAspect.All => f.sample_type_all
  | TextureAspect.DepthOnly => f.sample_type_depth_only

/-- The metadata of a `wgpu::Texture` that `MaterialBindGroups::layout`
inspects: `format()`, `sample_count()`, `depth_or_array_layers()`. -/
structure Texture where
  format : TextureFormat
  sample_count : Nat
  depth_or_array_layers : Nat
deriving DecidableEq, Repr

/-- A `wgpu::TextureView` handle: `id` is the opaque handle identity that
`Hash` feeds to the hasher; `texture` is the owning texture's metadata
reachable through `view.texture()`. -/
structure TextureView where
  id : Nat
  texture : Texture
deriving DecidableEq, Repr

/-- A `wgpu::Sampler` handle. -/
structure Sampler where
  id : Nat
deriving DecidableEq, Repr, Inhabited

/-- Key of the bind-group (instance) cache, `MaterialBindGroupKey`:
the hasher state after feeding every view handle, plus the shadow flag.
The hash is modeled by the fed id sequence itself. -/
structure MaterialBindGroupKey where
  views_hash : List Nat
  has_shadow : Bool
deriving DecidableEq, Repr

/-- `MaterialBindGroupKey::from_views`. -/
def MaterialBindGroupKey.from_views (views : List TextureView) (has_shadow : Bool) :
    MaterialBindGroupKey :=
  { views_hash := views.map TextureView.id, has_shadow := has_shadow }

/-- Key of the layout cache, `LayoutKey`: built exactly like
`MaterialBindGroupKey` — it hashes the view handles, not their shapes. -/
structure LayoutKey where
  layout_hash : List Nat
  has_shadow : Bool
deriving DecidableEq, Repr

/-- `LayoutKey::from_views`. -/
def LayoutKey.from_views (views : List TextureView) (has_shadow : Bool) : LayoutKey :=
  { layout_hash := views.map TextureView.id, has_shadow := has_shadow }

/-- `wgpu::BindingType` (the variants this module produces). -/
inductive BindingType where
  | Sampler (ty : SamplerBindingType)
  | Texture (multisampled : Bool) (view_dimension : TextureViewDimension)
      (sample_type : TextureSampleType)
deriving DecidableEq, Repr

/-- `wgpu::BindGroupLayoutEntry`. -/
structure BindGroupLayoutEntry where
  binding : Nat
  visibility : ShaderStages
  ty : BindingType
  count : Option Nat
deriving DecidableEq, Repr

/-- A `wgpu::BindGroupLayout` as returned by the device stub:
the entry list it was created from, stamped with the creation counter at
creation time (`creation_id` models object identity). -/
structure BindGroupLayout where
  entries : List BindGroupLayoutEntry
  creation_id : Nat
deriving DecidableEq, Repr, Inhabited

/-- `wgpu::BindingResource` (the variants this module produces). -/
inductive BindingResource where
  | Sampler (s : Sampler)
  | TextureView (v : TextureView)
deriving DecidableEq, Repr

/-- `wgpu::BindGroupEntry`. -/
structure BindGroupEntry where
  binding : Nat
  resource : BindingResource
deriving DecidableEq, Repr

/-- A `wgpu::BindGroup` as returned by the device stub. -/
structure BindGroup where
  layout : BindGroupLayout
  entries : List BindGroupEntry
  creation_id : Nat
deriving DecidableEq, Repr, Inhabited

/-- `std::collections::HashMap` lookup, modeled on an association list
(most recent insertion first). -/
def lookupMap {α β : Type} [DecidableEq α] : List (α × β) → α → Option β
  | [], _ => none
  | (k, v) :: rest, k2 => if k = k2 then some v else lookupMap rest k2

/-- The `MaterialBindGroups` struct. `layout_creates` and
`bind_group_creates` are the device stub's creation counters: the number of
`create_bind_group_layout` resp. `create_bind_group` calls issued so far. -/
structure MaterialBindGroups where
  sampler : Sampler
  layouts : List (LayoutKey × BindGroupLayout)
  bind_groups : List (MaterialBindGroupKey × BindGroup)
  layout_creates : Nat
  bind_group_creates : Nat
deriving DecidableEq, Repr, Inhabited

/-- `MaterialBindGroups::new` (the device's `create_sampler` is the
external stub supplying `sampler`). -/
def MaterialBindGroups.new (sampler : Sampler) : MaterialBindGroups :=
  { sampler := sampler
    layouts := []
    bind_groups := []
    layout_creates := 0
    bind_group_creates := 0 }

/-- Lines 97–101: resolve the sample-compatibility class — the `All`
aspect, with `or_else` fallback to `DepthOnly`. A `none` result is the
`.expect("Unsupported texture format")` panic. -/
def resolve_sample_type (f : TextureFormat) : Option TextureSampleType :=
  match f.sample_type TextureAspect.All with
  | some st => some st
  | none => f.sample_type TextureAspect.DepthOnly

/-- Lines 103–112: multisampled textures cannot use filtering — demote a
`Float` class to non-filterable, leave every other class unchanged. -/
def demote_multisampled (is_multisampled : Bool) (st : TextureSampleType) :
    TextureSampleType :=
  if is_multisampled then
    match st with
    | TextureSampleType.Float _ => TextureSampleType.Float false
    | other => other
  else st

/-- Lines 92–130, one loop iteration: the layout entry for one texture
view at binding index `binding`; `none` models the panic on an
unsupported format. -/
def texture_layout_entry (binding : Nat) (view : TextureView) :
    Option BindGroupLayoutEntry :=
  let tex := view.texture
  let is_multisampled := tex.sample_count > 1
  match resolve_sample_type tex.format with
  | none => none
  | some st =>
      some
        { binding := binding
          visibility := ShaderStages.FRAGMENT
          ty := BindingType.Texture is_multisampled
            (if tex.depth_or_array_layers > 1 then TextureViewDimension.D2Array
             else TextureViewDimension.D2)
            (demote_multisampled is_multisampled st)
          count := none }

/-- Lines 92–130, whole loop: layout entries for all texture views,
bindings counting up from `binding`. -/
def texture_layout_entries (binding : Nat) :
    List TextureView → Option (List BindGroupLayoutEntry)
  | [] => some []
  | v :: rest =>
      match texture_layout_entry binding v, texture_layout_entries (binding + 1) rest with
      | some e, some es => some (e :: es)
      | _, _ => none

/-- Lines 82–87: binding 0, the material sampler slot. -/
def material_sampler_entry : BindGroupLayoutEntry :=
  { binding := 0
    visibility := ShaderStages.FRAGMENT
    ty := BindingType.Sampler SamplerBindingType.Filtering
    count := none }

/-- Lines 132–151: the two optional shadow slots — a comparison sampler,
then a depth `D2Array` texture — at bindings `binding` and `binding + 1`
(the loop leaves `binding = texture count + 1`). -/
def shadow_layout_entries (binding : Nat) : List BindGroupLayoutEntry :=
  [ { binding := binding
      visibility := ShaderStages.FRAGMENT
      ty := BindingType.Sampler SamplerBindingType.Comparison
      count := none },
    { binding := binding + 1
      visibility := ShaderStages.FRAGMENT
      ty := BindingType.Texture false TextureViewDimension.D2Array TextureSampleType.Depth
      count := none } ]

/-- Lines 78–151: the full entry list assembled on a layout-cache miss. -/
def layout_entries (texture_views : List TextureView) (has_shadow : Bool) :
    Option (List BindGroupLayoutEntry) :=
  match texture_layout_entries 1 texture_views with
  | none => none
  | some tex_entries =>
      some (material_sampler_entry :: tex_entries ++
        (if has_shadow then shadow_layout_entries (texture_views.length + 1) else []))

/-- `MaterialBindGroups::layout` (lines 69–162): look the shape key up; on
a miss, assemble the entries, issue one `create_bind_group_layout` call
(incrementing the creation counter) and store the result. Returns the
layout together with the updated state; `none` is the unsupported-format
panic. -/
def MaterialBindGroups.layout (s : MaterialBindGroups)
    (texture_views : List TextureView) (has_shadow : Bool) :
    Option (BindGroupLayout × MaterialBindGroups) :=
  let key := LayoutKey.from_views texture_views has_shadow
  match lookupMap s.layouts key with
  | some l => some (l, s)
  | none =>
      match layout_entries texture_views has_shadow with
      | none => none
      | some entries =>
          let l : BindGroupLayout :=
            { entries := entries, creation_id := s.layout_creates }
          some (l,
            { s with
              layouts := (key, l) :: s.layouts
              layout_creates := s.layout_creates + 1 })

/-- Lines 189–195: the bind-group entries for the texture views, bindings
counting up from `binding`. -/
def texture_bind_entries (binding : Nat) : List TextureView → List BindGroupEntry
  | [] => []
  | v :: rest =>
      { binding := binding, resource := BindingResource.TextureView v } ::
        texture_bind_entries (binding + 1) rest

/-- Lines 178–211: the full bind-group entry list — shared material
sampler at 0, the texture views in order, then, if a shadow pair is
supplied, the caller's comparison sampler and shadow view. -/
def bind_group_entries (sampler : Sampler) (texture_views : List TextureView)
    (shadow : Option (Sampler × TextureView)) : List BindGroupEntry :=
  { binding := 0, resource := BindingResource.Sampler sampler } ::
    texture_bind_entries 1 texture_views ++
      (match shadow with
       | none => []
       | some (shadow_sampler, shadow_view) =>
           [ { binding := texture_views.length + 1
               resource := BindingResource.Sampler shadow_sampler },
             { binding := texture_views.length + 2
               resource := BindingResource.TextureView shadow_view } ])

/-- `MaterialBindGroups::get_or_create` (lines 165–223): derive the
identity key from the views and the shadow *presence*; on a miss, ensure
the layout exists via `MaterialBindGroups.layout`, issue one
`create_bind_group` call and store the result under the key. `none` is
the unsupported-format panic propagating out of the layout step. -/
def MaterialBindGroups.get_or_create (s : MaterialBindGroups)
    (texture_views : List TextureView) (shadow : Option (Sampler × TextureView)) :
    Option (BindGroup × MaterialBindGroups) :=
  let has_shadow := shadow.isSome
  let key := MaterialBindGroupKey.from_views texture_views has_shadow
  match lookupMap s.bind_groups key with
  | some bg => some (bg, s)
  | none =>
      match s.layout texture_views has_shadow with
      | none => none
      | some (l, s1) =>
          let bg : BindGroup :=
            { layout := l
              entries := bind_group_entries s1.sampler texture_views shadow
              creation_id := s1.bind_group_creates }
          some (bg,
            { s1 with
              bind_groups := (key, bg) :: s1.bind_groups
              bind_group_creates := s1.bind_group_creates + 1 })

/-- `MaterialBindGroups::clear` (lines 226–228): clears only the
bind-group cache. -/
def MaterialBindGroups.clear (s : MaterialBindGroups) : MaterialBindGroups :=
  { s with bind_groups := [] }

/-! ## Concrete inputs for closed-form runs -/

/-- A filterable-float color format (e.g. RGBA8). -/
def rgbaFormat : TextureFormat :=
  { sample_type_all := some (TextureSampleType.Float true)
    sample_type_depth_only := none }

/-- A combined depth-stencil-like format: no `All`-aspect class, a
`Depth` class for the `DepthOnly` aspect. -/
def depthFormat : TextureFormat :=
  { sample_type_all := none
    sample_type_depth_only := some TextureSampleType.Depth }

/-- A broken format: no sample-compatibility class for either aspect. -/
def badFormat : TextureFormat :=
  { sample_type_all := none
    sample_type_depth_only := none }

/-- Single-sample, single-layer filterable-float view with handle id 0. -/
def viewA : TextureView :=
  { id := 0
    texture := { format := rgbaFormat, sample_count := 1, depth_or_array_layers := 1 } }

/-- Same shape as `viewA` but a different handle id. -/
def viewB : TextureView :=
  { id := 1
    texture := { format := rgbaFormat, sample_count := 1, depth_or_array_layers := 1 } }

/-- A view whose format has no class for either aspect. -/
def viewBad : TextureView :=
  { id := 2
    texture := { format := badFormat, sample_count := 1, depth_or_array_layers := 1 } }

/-- A depth-array view usable as a shadow map. -/
def shadowViewA : TextureView :=
  { id := 10
    texture := { format := depthFormat, sample_count := 1, depth_or_array_layers := 4 } }

/-- A second, distinct shadow-map view. -/
def shadowViewB : TextureView :=
  { id := 11
    texture := { format := depthFormat, sample_count := 1, depth_or_array_layers := 4 } }

/-- A comparison sampler handle for shadow pairs. -/
def shadowSamplerA : Sampler := { id := 200 }

/-- A second, distinct comparison sampler handle. -/
def shadowSamplerB : Sampler := { id := 201 }

/-- A 4-sample multisampled filterable-float view. -/
def viewMsaa : TextureView :=
  { id := 3
    texture := { format := rgbaFormat, sample_count := 4, depth_or_array_layers := 1 } }

/-- A 6-layer array view with a filterable-float format. -/
def viewArr : TextureView :=
  { id := 4
    texture := { format := rgbaFormat, sample_count := 1, depth_or_array_layers := 6 } }

/-- Layout entry produced for `viewArr` at binding 1. -/
def entryArr : BindGroupLayoutEntry :=
  (texture_layout_entry 1 viewArr).getD material_sampler_entry

/-- A freshly constructed cache. -/
def state0 : MaterialBindGroups := MaterialBindGroups.new { id := 100 }

/-- Entries of the shadow layout for `[viewA]`. -/
def entriesShadowA : List BindGroupLayoutEntry :=
  (layout_entries [viewA] true).getD []

/-- Entries of the shadowless layout for `[viewA]`. -/
def entriesPlainA : List BindGroupLayoutEntry :=
  (layout_entries [viewA] false).getD []

/-- Result of the first `layout` call for `[viewA]` on the fresh cache. -/
def layoutRunA : BindGroupLayout × MaterialBindGroups :=
  (state0.layout [viewA] false).getD default

/-- Result of the first `get_or_create` call for `[viewA]`, no shadow. -/
def bgRunA : BindGroup × MaterialBindGroups :=
  (state0.get_or_create [viewA] none).getD default

/-- Result of the first `get_or_create` call for `[viewA]` with the first
shadow pair. -/
def bgRunShadow : BindGroup × MaterialBindGroups :=
  (state0.get_or_create [viewA] (some (shadowSamplerA, shadowViewA))).getD default

/-! ## Helper lemmas -/

theorem lookupMap_cons_self {α β : Type} [DecidableEq α] (k : α) (v : β)
    (m : List (α × β)) : lookupMap ((k, v) :: m) k = some v := by
  simp [lookupMap]

theorem layout_hit (s : MaterialBindGroups) (tv : List TextureView) (hs : Bool)
    (l : BindGroupLayout)
    (h : lookupMap s.layouts (LayoutKey.from_views tv hs) = some l) :
    s.layout tv hs = some (l, s) := by
  unfold MaterialBindGroups.layout
  simp only [h]

theorem layout_stores (s : MaterialBindGroups) (tv : List TextureView) (hs : Bool)
    (l : BindGroupLayout) (s' : MaterialBindGroups)
    (h : s.layout tv hs = some (l, s')) :
    lookupMap s'.layouts (LayoutKey.from_views tv hs) = some l := by
  unfold MaterialBindGroups.layout at h
  cases hl : lookupMap s.layouts (LayoutKey.from_views tv hs) with
  | some l0 =>
      simp only [hl, Option.some.injEq, Prod.mk.injEq] at h
      obtain ⟨h1, h2⟩ := h
      subst h1; subst h2
      exact hl
  | none =>
      simp only [hl] at h
      cases he : layout_entries tv hs with
      | none => simp [he] at h
      | some es =>
          simp only [he, Option.some.injEq, Prod.mk.injEq] at h
          obtain ⟨h1, h2⟩ := h
          subst h2
          simp [lookupMap, h1]

theorem get_or_create_hit (s : MaterialBindGroups) (tv : List TextureView)
    (shadow : Option (Sampler × TextureView)) (bg : BindGroup)
    (h : lookupMap s.bind_groups (MaterialBindGroupKey.from_views tv shadow.isSome) =
      some bg) :
    s.get_or_create tv shadow = some (bg, s) := by
  unfold MaterialBindGroups.get_or_create
  simp only [h]

theorem get_or_create_stores (s : MaterialBindGroups) (tv : List TextureView)
    (shadow : Option (Sampler × TextureView)) (bg : BindGroup)
    (s' : MaterialBindGroups)
    (h : s.get_or_create tv shadow = some (bg, s')) :
    lookupMap s'.bind_groups (MaterialBindGroupKey.from_views tv shadow.isSome) =
      some bg := by
  unfold MaterialBindGroups.get_or_create at h
  cases hb : lookupMap s.bind_groups (MaterialBindGroupKey.from_views tv shadow.isSome) with
  | some bg0 =>
      simp only [hb, Option.some.injEq, Prod.mk.injEq] at h
      obtain ⟨h1, h2⟩ := h
      subst h1; subst h2
      exact hb
  | none =>
      simp only [hb] at h
      cases hl : s.layout tv shadow.isSome with
      | none => simp [hl] at h
      | some p =>
          simp only [hl, Option.some.injEq, Prod.mk.injEq] at h
          obtain ⟨h1, h2⟩ := h
          subst h2
          simp [lookupMap, h1]

theorem texture_layout_entry_spec (b : Nat) (v : TextureView)
    (e : BindGroupLayoutEntry) (h : texture_layout_entry b v = some e) :
    e.binding = b ∧ e.visibility = ShaderStages.FRAGMENT ∧ e.count = none ∧
    ∃ st0, resolve_sample_type v.texture.format = some st0 ∧
      e.ty = BindingType.Texture (decide (1 < v.texture.sample_count))
        (if 1 < v.texture.depth_or_array_layers then TextureViewDimension.D2Array
         else TextureViewDimension.D2)
        (demote_multisampled (decide (1 < v.texture.sample_count)) st0) := by
  unfold texture_layout_entry at h
  cases hr : resolve_sample_type v.texture.format with
  | none => simp [hr] at h
  | some st =>
      simp only [hr, Option.some.injEq] at h
      subst h
      exact ⟨rfl, rfl, rfl, st, rfl, rfl⟩

theorem texture_layout_entries_spec (tv : List TextureView) (b : Nat)
    (tes : List BindGroupLayoutEntry)
    (h : texture_layout_entries b tv = some tes) :
    tes.length = tv.length ∧
    ∀ i, i < tv.length →
      ∃ e, tes[i]? = some e ∧ e.binding = b + i ∧
        e.visibility = ShaderStages.FRAGMENT ∧ e.count = none ∧
        ∃ ms d st, e.ty = BindingType.Texture ms d st := by
  induction tv generalizing b tes with
  | nil =>
      simp only [texture_layout_entries, Option.some.injEq] at h
      subst h
      simp
  | cons v rest ih =>
      unfold texture_layout_entries at h
      cases he : texture_layout_entry b v with
      | none => simp [he] at h
      | some e =>
          cases hr : texture_layout_entries (b + 1) rest with
          | none => simp [he, hr] at h
          | some es =>
              simp only [he, hr, Option.some.injEq] at h
              subst h
              obtain ⟨hlen, hidx⟩ := ih (b + 1) es hr
              refine ⟨by simp [hlen], ?_⟩
              intro i hi
              cases i with
              | zero =>
                  obtain ⟨hb, hv, hc, st0, hst, hty⟩ := texture_layout_entry_spec b v e he
                  exact ⟨e, by simp, by simpa using hb, hv, hc,
                    decide (1 < v.texture.sample_count),
                    (if 1 < v.texture.depth_or_array_layers then TextureViewDimension.D2Array
                     else TextureViewDimension.D2),
                    demote_multisampled (decide (1 < v.texture.sample_count)) st0, hty⟩
              | succ j =>
                  have hj : j < rest.length := by
                    simpa using Nat.lt_of_succ_lt_succ hi
                  obtain ⟨e2, hge, hb, hv, hc, hty⟩ := hidx j hj
                  refine ⟨e2, by simpa using hge, ?_, hv, hc, hty⟩
                  omega

/-! ## Claim theorems -/

/-- Claim C1: for every list of texture views and shadow flag, repeated
calls to `MaterialBindGroups::layout` with the same arguments return the
same cached layout object: after a successful call returning `(l, s')`,
the key is present in the layouts map, and the second call returns the
very same layout `l` with the state unchanged (`s'` itself) — so no second
`create_bind_group_layout` call is issued. -/
theorem layout_idempotent (s : MaterialBindGroups) (tv : List TextureView)
    (hs : Bool) (l : BindGroupLayout) (s' : MaterialBindGroups)
    (h : s.layout tv hs = some (l, s')) :
    lookupMap s'.layouts (LayoutKey.from_views tv hs) = some l ∧
    s'.layout tv hs = some (l, s') := by
  have hpost := layout_stores s tv hs l s' h
  exact ⟨hpost, layout_hit s' tv hs l hpost⟩

/-- Concrete run of Claim C1 on a fresh cache and one RGBA8-like view. -/
theorem layout_idempotent_witness :
    MaterialBindGroups.layout state0 [viewA] false = some (layoutRunA.1, layoutRunA.2) ∧
    (lookupMap layoutRunA.2.layouts (LayoutKey.from_views [viewA] false) =
        some layoutRunA.1 ∧
      MaterialBindGroups.layout layoutRunA.2 [viewA] false =
        some (layoutRunA.1, layoutRunA.2)) :=
  ⟨by decide, layout_idempotent state0 [viewA] false layoutRunA.1 layoutRunA.2 (by decide)⟩

/-- Claim C2: for every texture-view list and shadow argument, after a
successful `get_or_create` returning `(bg, s')`, the instance is stored
under the identity key, and a repeated call with the same arguments is a
cache hit returning the stored instance `bg` with the state unchanged
(`s'` itself) — the instance is created once. -/
theorem get_or_create_idempotent (s : MaterialBindGroups) (tv : List TextureView)
    (shadow : Option (Sampler × TextureView)) (bg : BindGroup)
    (s' : MaterialBindGroups)
    (h : s.get_or_create tv shadow = some (bg, s')) :
    lookupMap s'.bind_groups (MaterialBindGroupKey.from_views tv shadow.isSome) =
        some bg ∧
    s'.get_or_create tv shadow = some (bg, s') := by
  have hpost := get_or_create_stores s tv shadow bg s' h
  exact ⟨hpost, get_or_create_hit s' tv shadow bg hpost⟩

/-- Concrete run of Claim C2 on a fresh cache and one RGBA8-like view. -/
theorem get_or_create_idempotent_witness :
    MaterialBindGroups.get_or_create state0 [viewA] none = some (bgRunA.1, bgRunA.2) ∧
    (lookupMap bgRunA.2.bind_groups (MaterialBindGroupKey.from_views [viewA] false) =
        some bgRunA.1 ∧
      MaterialBindGroups.get_or_create bgRunA.2 [viewA] none =
        some (bgRunA.1, bgRunA.2)) :=
  ⟨by decide, get_or_create_idempotent state0 [viewA] none bgRunA.1 bgRunA.2 (by decide)⟩

/-- Claim C10: the identity key ignores the concrete shadow resources —
for a fixed view list, two `get_or_create` calls that both supply a shadow
pair compute the same `MaterialBindGroupKey` even when the samplers and
views of the pairs differ, so the second call returns the instance cached
for the first pair's resources instead of building one for its own pair. -/
theorem identity_key_ignores_shadow_resources (s : MaterialBindGroups)
    (tv : List TextureView) (p1 p2 : Sampler × TextureView) (bg : BindGroup)
    (s' : MaterialBindGroups)
    (h : s.get_or_create tv (some p1) = some (bg, s')) :
    MaterialBindGroupKey.from_views tv (some p1).isSome =
        MaterialBindGroupKey.from_views tv (some p2).isSome ∧
    s'.get_or_create tv (some p2) = some (bg, s') := by
  have hpost := get_or_create_stores s tv (some p1) bg s' h
  exact ⟨rfl, get_or_create_hit s' tv (some p2) bg hpost⟩

/-- Concrete run of Claim C10: two different shadow pairs, same views;
the second call returns the first pair's cached instance. -/
theorem identity_key_ignores_shadow_resources_witness :
    MaterialBindGroups.get_or_create state0 [viewA] (some (shadowSamplerA, shadowViewA)) =
        some (bgRunShadow.1, bgRunShadow.2) ∧
    (MaterialBindGroupKey.from_views [viewA] (some (shadowSamplerA, shadowViewA)).isSome =
        MaterialBindGroupKey.from_views [viewA] (some (shadowSamplerB, shadowViewB)).isSome ∧
      MaterialBindGroups.get_or_create bgRunShadow.2
          [viewA] (some (shadowSamplerB, shadowViewB)) =
        some (bgRunShadow.1, bgRunShadow.2)) :=
  ⟨by decide,
    identity_key_ignores_shadow_resources state0 [viewA]
      (shadowSamplerA, shadowViewA) (shadowSamplerB, shadowViewB)
      bgRunShadow.1 bgRunShadow.2 (by decide)⟩

/-- Claim C3: the layout entry list for N texture views has exactly N + 3
slots when `has_shadow` is true — filtering sampler at binding 0, then the
N texture slots at bindings 1..N, then a comparison sampler and a depth
`D2Array` texture — and exactly N + 1 slots (sampler, then the N texture
slots) when `has_shadow` is false. -/
theorem shadow_slot_placement (tv : List TextureView)
    (es es' : List BindGroupLayoutEntry)
    (h : layout_entries tv true = some es)
    (h' : layout_entries tv false = some es') :
    es.length = tv.length + 3 ∧
    es'.length = tv.length + 1 ∧
    ∃ tes, texture_layout_entries 1 tv = some tes ∧
      es = material_sampler_entry :: tes ++ shadow_layout_entries (tv.length + 1) ∧
      es' = material_sampler_entry :: tes ∧
      material_sampler_entry =
        { binding := 0, visibility := ShaderStages.FRAGMENT,
          ty := BindingType.Sampler SamplerBindingType.Filtering, count := none } ∧
      (∀ i, i < tv.length →
        ∃ e, tes[i]? = some e ∧ e.binding = i + 1 ∧
          ∃ ms d st, e.ty = BindingType.Texture ms d st) ∧
      shadow_layout_entries (tv.length + 1) =
        [ { binding := tv.length + 1, visibility := ShaderStages.FRAGMENT,
            ty := BindingType.Sampler SamplerBindingType.Comparison, count := none },
          { binding := tv.length + 2, visibility := ShaderStages.FRAGMENT,
            ty := BindingType.Texture false TextureViewDimension.D2Array
              TextureSampleType.Depth, count := none } ] := by
  unfold layout_entries at h h'
  cases ht : texture_layout_entries 1 tv with
  | none => simp [ht] at h
  | some tes =>
      simp only [ht, Option.some.injEq] at h h'
      rw [if_pos trivial] at h
      rw [if_neg (by simp), List.append_nil] at h'
      obtain ⟨hlen, hidx⟩ := texture_layout_entries_spec tv 1 tes ht
      subst h
      subst h'
      refine ⟨?_, ?_, tes, rfl, ?_, rfl, rfl, ?_, rfl⟩
      · simp [shadow_layout_entries, hlen]
      · simp [hlen]
      · simp
      · intro i hi
        obtain ⟨e, hge, hb, hv, hc, hty⟩ := hidx i hi
        refine ⟨e, hge, ?_, hty⟩
        omega

/-- Concrete run of Claim C3: the shadow and shadowless layouts for one
RGBA8-like view have 4 resp. 2 slots in the stated order. -/
theorem shadow_slot_placement_witness :
    layout_entries [viewA] true = some entriesShadowA ∧
    layout_entries [viewA] false = some entriesPlainA ∧
    (entriesShadowA.length = [viewA].length + 3 ∧
      entriesPlainA.length = [viewA].length + 1 ∧
      ∃ tes, texture_layout_entries 1 [viewA] = some tes ∧
        entriesShadowA =
          material_sampler_entry :: tes ++ shadow_layout_entries ([viewA].length + 1) ∧
        entriesPlainA = material_sampler_entry :: tes ∧
        material_sampler_entry =
          { binding := 0, visibility := ShaderStages.FRAGMENT,
            ty := BindingType.Sampler SamplerBindingType.Filtering, count := none } ∧
        (∀ i, i < [viewA].length →
          ∃ e, tes[i]? = some e ∧ e.binding = i + 1 ∧
            ∃ ms d st, e.ty = BindingType.Texture ms d st) ∧
        shadow_layout_entries ([viewA].length + 1) =
          [ { binding := [viewA].length + 1, visibility := ShaderStages.FRAGMENT,
              ty := BindingType.Sampler SamplerBindingType.Comparison, count := none },
            { binding := [viewA].length + 2, visibility := ShaderStages.FRAGMENT,
              ty := BindingType.Texture false TextureViewDimension.D2Array
                TextureSampleType.Depth, count := none } ]) :=
  ⟨by decide, by decide,
    shadow_slot_placement [viewA] entriesShadowA entriesPlainA (by decide) (by decide)⟩

/-- Claim C4: a texture view whose owning texture is multisampled
(sample count > 1) and whose format resolves to the filterable-float
class yields a texture slot marked multisampled with sample type
`Float { filterable: false }`; and the multisample demotion leaves every
non-`Float` sample-compatibility class unchanged. -/
theorem multisample_demotion (b : Nat) (v : TextureView)
    (hms : 1 < v.texture.sample_count)
    (hft : resolve_sample_type v.texture.format =
      some (TextureSampleType.Float true)) :
    texture_layout_entry b v = some
      { binding := b
        visibility := ShaderStages.FRAGMENT
        ty := BindingType.Texture true
          (if 1 < v.texture.depth_or_array_layers then TextureViewDimension.D2Array
           else TextureViewDimension.D2)
          (TextureSampleType.Float false)
        count := none } ∧
    ∀ st : TextureSampleType, (∀ fb, st ≠ TextureSampleType.Float fb) →
      demote_multisampled true st = st := by
  constructor
  · unfold texture_layout_entry
    simp only [hft]
    have hdec : decide (1 < v.texture.sample_count) = true := by
      simpa using hms
    simp [hdec, demote_multisampled]
  · intro st hst
    cases st with
    | Float fb => exact absurd rfl (hst fb)
    | Depth => rfl
    | Sint => rfl
    | Uint => rfl

/-- Concrete run of Claim C4 on a 4-sample RGBA8-like view. -/
theorem multisample_demotion_witness :
    1 < viewMsaa.texture.sample_count ∧
    resolve_sample_type viewMsaa.texture.format =
      some (TextureSampleType.Float true) ∧
    (texture_layout_entry 1 viewMsaa = some
        { binding := 1
          visibility := ShaderStages.FRAGMENT
          ty := BindingType.Texture true
            (if 1 < viewMsaa.texture.depth_or_array_layers then
              TextureViewDimension.D2Array
             else TextureViewDimension.D2)
            (TextureSampleType.Float false)
          count := none } ∧
      ∀ st : TextureSampleType, (∀ fb, st ≠ TextureSampleType.Float fb) →
        demote_multisampled true st = st) :=
  ⟨by decide, by decide, multisample_demotion 1 viewMsaa (by decide) (by decide)⟩

/-- Claim C5: the texture slot built for a view uses `D2Array`
dimensionality exactly when the owning texture's layer count is greater
than 1, and plain `D2` otherwise. -/
theorem array_dimensionality (b : Nat) (v : TextureView)
    (e : BindGroupLayoutEntry) (h : texture_layout_entry b v = some e) :
    ∃ ms st,
      (1 < v.texture.depth_or_array_layers →
        e.ty = BindingType.Texture ms TextureViewDimension.D2Array st) ∧
      (¬ 1 < v.texture.depth_or_array_layers →
        e.ty = BindingType.Texture ms TextureViewDimension.D2 st) := by
  obtain ⟨hb, hv, hc, st0, hst, hty⟩ := texture_layout_entry_spec b v e h
  refine ⟨decide (1 < v.texture.sample_count),
    demote_multisampled (decide (1 < v.texture.sample_count)) st0, ?_, ?_⟩
  · intro hl
    rw [hty, if_pos hl]
  · intro hl
    rw [hty, if_neg hl]

/-- Concrete run of Claim C5 on a 6-layer array view. -/
theorem array_dimensionality_witness :
    texture_layout_entry 1 viewArr = some entryArr ∧
    ∃ ms st,
      (1 < viewArr.texture.depth_or_array_layers →
        entryArr.ty = BindingType.Texture ms TextureViewDimension.D2Array st) ∧
      (¬ 1 < viewArr.texture.depth_or_array_layers →
        entryArr.ty = BindingType.Texture ms TextureViewDimension.D2 st) :=
  ⟨by decide, array_dimensionality 1 viewArr entryArr (by decide)⟩

theorem layout_frame (s : MaterialBindGroups) (tv : List TextureView) (hs : Bool)
    (l : BindGroupLayout) (s' : MaterialBindGroups)
    (h : s.layout tv hs = some (l, s')) :
    s'.sampler = s.sampler ∧ s'.bind_groups = s.bind_groups ∧
    s'.bind_group_creates = s.bind_group_creates := by
  unfold MaterialBindGroups.layout at h
  cases hl : lookupMap s.layouts (LayoutKey.from_views tv hs) with
  | some l0 =>
      simp only [hl, Option.some.injEq, Prod.mk.injEq] at h
      obtain ⟨h1, h2⟩ := h
      subst h2
      exact ⟨rfl, rfl, rfl⟩
  | none =>
      simp only [hl] at h
      cases he : layout_entries tv hs with
      | none => simp [he] at h
      | some es =>
          simp only [he, Option.some.injEq, Prod.mk.injEq] at h
          obtain ⟨h1, h2⟩ := h
          subst h2
          exact ⟨rfl, rfl, rfl⟩

theorem get_or_create_miss (s : MaterialBindGroups) (tv : List TextureView)
    (shadow : Option (Sampler × TextureView)) (bg : BindGroup)
    (s' : MaterialBindGroups)
    (hmiss : lookupMap s.bind_groups
      (MaterialBindGroupKey.from_views tv shadow.isSome) = none)
    (h : s.get_or_create tv shadow = some (bg, s')) :
    ∃ l s1, s.layout tv shadow.isSome = some (l, s1) ∧
      bg = { layout := l
             entries := bind_group_entries s1.sampler tv shadow
             creation_id := s1.bind_group_creates } ∧
      s' = { s1 with
             bind_groups :=
               (MaterialBindGroupKey.from_views tv shadow.isSome, bg) :: s1.bind_groups
             bind_group_creates := s1.bind_group_creates + 1 } := by
  unfold MaterialBindGroups.get_or_create at h
  simp only [hmiss] at h
  cases hl : s.layout tv shadow.isSome with
  | none => simp [hl] at h
  | some p =>
      obtain ⟨l1, s1⟩ := p
      simp only [hl, Option.some.injEq, Prod.mk.injEq] at h
      obtain ⟨h1, h2⟩ := h
      subst h1
      exact ⟨l1, s1, rfl, rfl, h2.symm⟩

theorem get_or_create_creates (s : MaterialBindGroups) (tv : List TextureView)
    (shadow : Option (Sampler × TextureView)) (bg : BindGroup)
    (s' : MaterialBindGroups)
    (hmiss : lookupMap s.bind_groups
      (MaterialBindGroupKey.from_views tv shadow.isSome) = none)
    (h : s.get_or_create tv shadow = some (bg, s')) :
    s'.bind_group_creates = s.bind_group_creates + 1 ∧
    bg.creation_id = s.bind_group_creates := by
  obtain ⟨l, s1, hlay, hbg, hs'⟩ := get_or_create_miss s tv shadow bg s' hmiss h
  obtain ⟨-, -, hbgc⟩ := layout_frame s tv shadow.isSome l s1 hlay
  subst hs'
  subst hbg
  simp [hbgc]

theorem texture_layout_entries_fail (tv : List TextureView) (b : Nat)
    (v : TextureView) (hmem : v ∈ tv)
    (hfail : resolve_sample_type v.texture.format = none) :
    texture_layout_entries b tv = none := by
  induction tv generalizing b with
  | nil => cases hmem
  | cons w rest ih =>
      unfold texture_layout_entries
      rcases List.mem_cons.mp hmem with heq | hmem2
      · subst heq
        unfold texture_layout_entry
        simp [hfail]
      · have h2 := ih (b + 1) hmem2
        cases he : texture_layout_entry b w with
        | none => simp [he]
        | some e => simp [he, h2]

/-- Claim C6: `clear` empties only the bind-group cache and leaves the
layout cache unchanged — after a creating `get_or_create` and a `clear`,
the same request builds a new bind group (one new `create_bind_group`
call, a distinct object), while the layout is found in the untouched
layouts map and not recreated (the layout creation counter stays put and
the new instance reuses the same layout object). -/
theorem clear_semantics (s : MaterialBindGroups) (tv : List TextureView)
    (shadow : Option (Sampler × TextureView)) (bg : BindGroup)
    (s' : MaterialBindGroups)
    (hmiss : lookupMap s.bind_groups
      (MaterialBindGroupKey.from_views tv shadow.isSome) = none)
    (h : s.get_or_create tv shadow = some (bg, s')) :
    s'.clear.layouts = s'.layouts ∧
    s'.clear.bind_groups = [] ∧
    ∃ bg2 s2, s'.clear.get_or_create tv shadow = some (bg2, s2) ∧
      s2.layout_creates = s'.layout_creates ∧
      s2.bind_group_creates = s'.bind_group_creates + 1 ∧
      bg2.layout = bg.layout ∧
      bg2 ≠ bg := by
  obtain ⟨l, s1, hlay, hbg, hs'⟩ := get_or_create_miss s tv shadow bg s' hmiss h
  have hlookupL : lookupMap s1.layouts (LayoutKey.from_views tv shadow.isSome) =
      some l := layout_stores s tv shadow.isSome l s1 hlay
  have hlookupC : lookupMap s'.clear.layouts (LayoutKey.from_views tv shadow.isSome) =
      some l := by
    rw [hs']
    exact hlookupL
  have hlay2 : s'.clear.layout tv shadow.isSome = some (l, s'.clear) :=
    layout_hit s'.clear tv shadow.isSome l hlookupC
  have hmiss2 : lookupMap s'.clear.bind_groups
      (MaterialBindGroupKey.from_views tv shadow.isSome) = none := rfl
  have hrun : s'.clear.get_or_create tv shadow = some
      ({ layout := l
         entries := bind_group_entries s'.clear.sampler tv shadow
         creation_id := s'.clear.bind_group_creates },
       { s'.clear with
         bind_groups :=
           [(MaterialBindGroupKey.from_views tv shadow.isSome,
             { layout := l
               entries := bind_group_entries s'.clear.sampler tv shadow
               creation_id := s'.clear.bind_group_creates })]
         bind_group_creates := s'.clear.bind_group_creates + 1 }) := by
    unfold MaterialBindGroups.get_or_create
    simp only [hmiss2, hlay2]
    rfl
  refine ⟨rfl, rfl, _, _, hrun, ?_, ?_, ?_, ?_⟩
  · rfl
  · rfl
  · rw [hbg]
  · intro heq
    have hid := congrArg BindGroup.creation_id heq
    rw [hbg] at hid
    have hcl : s'.clear.bind_group_creates = s1.bind_group_creates + 1 := by
      rw [show s'.clear.bind_group_creates = s'.bind_group_creates from rfl, hs']
    rw [hcl] at hid
    simp at hid

/-- Concrete run of Claim C6 on a fresh cache and one RGBA8-like view. -/
theorem clear_semantics_witness :
    MaterialBindGroups.get_or_create state0 [viewA] none = some (bgRunA.1, bgRunA.2) ∧
    (bgRunA.2.clear.layouts = bgRunA.2.layouts ∧
      bgRunA.2.clear.bind_groups = [] ∧
      ∃ bg2 s2, bgRunA.2.clear.get_or_create [viewA] none = some (bg2, s2) ∧
        s2.layout_creates = bgRunA.2.layout_creates ∧
        s2.bind_group_creates = bgRunA.2.bind_group_creates + 1 ∧
        bg2.layout = bgRunA.1.layout ∧
        bg2 ≠ bgRunA.1) :=
  ⟨by decide, clear_semantics state0 [viewA] none bgRunA.1 bgRunA.2 (by decide) (by decide)⟩

/-- Claim C8: identity-key derivation is order-sensitive — swapping two
texture views with distinct handles yields a different
`MaterialBindGroupKey`, and a `get_or_create` call with the swapped list,
absent a prior matching request (cache miss on its key), creates a new
instance: the creation counter advances and the returned bind group is
the freshly stamped one. -/
theorem order_sensitivity (l1 l2 l3 : List TextureView) (a b : TextureView)
    (hs : Bool) (hab : a.id ≠ b.id) :
    MaterialBindGroupKey.from_views (l1 ++ (a :: (l2 ++ (b :: l3)))) hs ≠
      MaterialBindGroupKey.from_views (l1 ++ (b :: (l2 ++ (a :: l3)))) hs ∧
    ∀ (s : MaterialBindGroups) (shadow : Option (Sampler × TextureView))
      (bg : BindGroup) (s' : MaterialBindGroups),
      lookupMap s.bind_groups
        (MaterialBindGroupKey.from_views (l1 ++ (b :: (l2 ++ (a :: l3)))) shadow.isSome) =
        none →
      s.get_or_create (l1 ++ (b :: (l2 ++ (a :: l3)))) shadow = some (bg, s') →
      s'.bind_group_creates = s.bind_group_creates + 1 ∧
      bg.creation_id = s.bind_group_creates := by
  constructor
  · intro heq
    have hv : List.map TextureView.id (l1 ++ (a :: (l2 ++ (b :: l3)))) =
        List.map TextureView.id (l1 ++ (b :: (l2 ++ (a :: l3)))) :=
      congrArg MaterialBindGroupKey.views_hash heq
    simp only [List.map_append, List.map_cons] at hv
    have hv2 : a.id :: (List.map TextureView.id l2 ++ b.id :: List.map TextureView.id l3) =
        b.id :: (List.map TextureView.id l2 ++ a.id :: List.map TextureView.id l3) :=
      List.append_cancel_left hv
    injection hv2 with h1 h2
    exact hab h1
  · intro s shadow bg s' hmiss h
    exact get_or_create_creates s (l1 ++ (b :: (l2 ++ (a :: l3)))) shadow bg s' hmiss h

/-- Concrete run of Claim C8: swapping `viewA` and `viewB` changes the
key and forces a fresh creation on a fresh cache. -/
theorem order_sensitivity_witness :
    viewA.id ≠ viewB.id ∧
    (MaterialBindGroupKey.from_views ([] ++ (viewA :: ([] ++ (viewB :: [])))) false ≠
        MaterialBindGroupKey.from_views ([] ++ (viewB :: ([] ++ (viewA :: [])))) false ∧
      ∀ (s : MaterialBindGroups) (shadow : Option (Sampler × TextureView))
        (bg : BindGroup) (s' : MaterialBindGroups),
        lookupMap s.bind_groups
          (MaterialBindGroupKey.from_views ([] ++ (viewB :: ([] ++ (viewA :: []))))
            shadow.isSome) = none →
        s.get_or_create ([] ++ (viewB :: ([] ++ (viewA :: [])))) shadow = some (bg, s') →
        s'.bind_group_creates = s.bind_group_creates + 1 ∧
        bg.creation_id = s.bind_group_creates) :=
  ⟨by decide, order_sensitivity [] [] [] viewA viewB false (by decide)⟩

/-- Claim C9: when a view's format yields no sample-compatibility class
for the `All` aspect, the `DepthOnly` aspect is the fallback; when neither
aspect yields a class and the shape key is not already cached, layout
construction halts fatally (the `.expect` panic, modeled as `none`)
instead of producing a layout — no recovery and no degraded slot. -/
theorem format_fallback_fatal (s : MaterialBindGroups) (tv : List TextureView)
    (hs : Bool) (v : TextureView) (hmem : v ∈ tv)
    (hAll : v.texture.format.sample_type_all = none)
    (hD : v.texture.format.sample_type_depth_only = none)
    (hmiss : lookupMap s.layouts (LayoutKey.from_views tv hs) = none) :
    (∀ g : TextureFormat, g.sample_type_all = none →
      resolve_sample_type g = g.sample_type_depth_only) ∧
    s.layout tv hs = none := by
  constructor
  · intro g hg
    unfold resolve_sample_type TextureFormat.sample_type
    rw [hg]
  · have hfail : resolve_sample_type v.texture.format = none := by
      unfold resolve_sample_type TextureFormat.sample_type
      rw [hAll, hD]
    have hte := texture_layout_entries_fail tv 1 v hmem hfail
    unfold MaterialBindGroups.layout
    simp only [hmiss]
    unfold layout_entries
    simp [hte]

/-- Concrete run of Claim C9 on a view whose format has no class for
either aspect. -/
theorem format_fallback_fatal_witness :
    viewBad ∈ [viewBad] ∧
    ((∀ g : TextureFormat, g.sample_type_all = none →
        resolve_sample_type g = g.sample_type_depth_only) ∧
      MaterialBindGroups.layout state0 [viewBad] false = none) :=
  ⟨by decide,
    format_fallback_fatal state0 [viewBad] false viewBad (by decide)
      (by decide) (by decide) (by decide)⟩

/-- Claim C7 counterexample: `viewA` and `viewB` have identical per-slot
shapes (the very same owning-texture metadata) and carry the same shadow
flag, but their handles differ — and `LayoutKey::from_views` produces
*different* Shape Keys for them; moreover, after the layout for `[viewA]`
is cached, requesting the layout for `[viewB]` does not reuse it: a second
`create_bind_group_layout` call is issued (the creation counter reaches 2
instead of staying at 1). -/
theorem shape_key_counterexample :
    viewA.texture = viewB.texture ∧
    viewA.id ≠ viewB.id ∧
    LayoutKey.from_views [viewA] false ≠ LayoutKey.from_views [viewB] false ∧
    layoutRunA.2.layout_creates = 1 ∧
    (layoutRunA.2.layout [viewB] false).map (fun p => p.2.layout_creates) =
      some 2 := by decide

/-- Claim C7 (amended): the Shape Key is derived from the sequence of view
handles, not from their shapes — two view lists produce the same
`LayoutKey` exactly when their handle-id sequences and their shadow flags
coincide, so lists with different handles get different keys (and hence
separate cached layouts) even when their per-slot shapes are identical. -/
theorem shape_key_from_handles (tv tv' : List TextureView) (hs hs' : Bool) :
    LayoutKey.from_views tv hs = LayoutKey.from_views tv' hs' ↔
      tv.map TextureView.id = tv'.map TextureView.id ∧ hs = hs' := by
  unfold LayoutKey.from_views
  constructor
  · intro h
    exact ⟨congrArg LayoutKey.layout_hash h, congrArg LayoutKey.has_shadow h⟩
  · intro h
    rw [h.1, h.2]
